import Mathlib

/-!
Verification of the classroom-finder agent service against its design
specification.  The embedded code comes from `src/utils/tools.py`
(`validate_address`, `get_distance`, `sort_classrooms_by_distance`,
`query_classrooms_basic`, `query_classrooms_with_amenities`),
`src/utils/model.py` (`dynamic_model_selection`) and `src/app.py`
(`chat_endpoint`).

Embedding conventions:
* Nullable inventory columns become `Option Bool` / `Option String`; `none`
  is SQL `NULL`.
* The SQL `WHERE` conditions that the two query tools assemble as strings
  are embedded as the `Cond` datatype, one constructor per condition shape
  the Python code emits; `evalCond` gives each condition its PostgreSQL
  three-valued-logic meaning (a `WHERE` clause keeps a row only when the
  condition is TRUE; `NULL IS NOT FALSE` is TRUE; `NULL = FALSE` is not
  TRUE).
* External effects (the database cursor, the Google Maps HTTP responses,
  the LangGraph workflow) become explicit function arguments; an
  `Except String _` argument models "the call returned data / the call
  raised an exception", mirroring each `try/except` block of the source.
* Python truthiness tests are mirrored exactly: `if class_size:` treats
  `0` like `None`, `if projection_surface:` treats `""` like `None`.
-/

/-- One row of the `"Classroom"` inventory table.  Boolean amenity columns
are nullable in the store, hence `Option Bool`.  The `createdAt` /
`updatedAt` timestamp columns only pass through `_serialize_classrooms`
unchanged in shape and are irrelevant to every claim, so they are elided. -/
structure Classroom where
  building : String
  room : String
  seatCount : Int
  seminarSetup : Option Bool := none
  lectureSetup : Option Bool := none
  groupLearning : Option Bool := none
  projectionSurface : Option String := none
  computer : Option String := none
  microphone : Option String := none
  zoomRoom : Option String := none
  teachingStation : Option String := none
  floorType : Option String := none
  furniture : Option String := none
  classroomCapture : Option Bool := none
  groupLearningScreens : Option Bool := none
  whiteBoard : Option Bool := none
  chalkBoard : Option Bool := none
  dualBoardScreenUse : Option Bool := none
  groupLearningBoards : Option Bool := none
  windows : Option Bool := none
  ac : Option Bool := none
  filmScreening : Option Bool := none
  deriving Repr, DecidableEq

/-- The condition shapes emitted into the SQL `WHERE` clause by
`query_classrooms_basic` and `query_classrooms_with_amenities`:
`"col" IS NOT FALSE`, `"col" = FALSE`,
`"seatCount" >= lo AND "seatCount" <= hi` (with the two bind parameters
inlined), and `"col" = value` for string amenities. -/
inductive Cond where
  | isNotFalse (field : String)
  | eqFalse (field : String)
  | seatRange (lo hi : Int)
  | strEq (field : String) (value : String)
  deriving Repr, DecidableEq

/-- Look up a nullable boolean column of a row by its SQL column name. -/
def boolFieldValue (c : Classroom) (f : String) : Option Bool :=
  if f = "seminarSetup" then c.seminarSetup
  else if f = "lectureSetup" then c.lectureSetup
  else if f = "groupLearning" then c.groupLearning
  else if f = "classroomCapture" then c.classroomCapture
  else if f = "groupLearningScreens" then c.groupLearningScreens
  else if f = "whiteBoard" then c.whiteBoard
  else if f = "chalkBoard" then c.chalkBoard
  else if f = "dualBoardScreenUse" then c.dualBoardScreenUse
  else if f = "groupLearningBoards" then c.groupLearningBoards
  else if f = "windows" then c.windows
  else if f = "ac" then c.ac
  else if f = "filmScreening" then c.filmScreening
  else none

/-- Look up a nullable string column of a row by its SQL column name. -/
def strFieldValue (c : Classroom) (f : String) : Option String :=
  if f = "projectionSurface" then c.projectionSurface
  else if f = "computer" then c.computer
  else if f = "microphone" then c.microphone
  else if f = "zoomRoom" then c.zoomRoom
  else if f = "teachingStation" then c.teachingStation
  else if f = "floorType" then c.floorType
  else if f = "furniture" then c.furniture
  else none

/-- PostgreSQL semantics of one emitted condition on one row: `true` iff the
condition evaluates to SQL TRUE (so the `WHERE` clause keeps the row).
`NULL IS NOT FALSE` is TRUE; `NULL = FALSE` and `NULL = value` are NULL,
which a `WHERE` clause treats as not TRUE. -/
def evalCond (c : Classroom) : Cond → Bool
  | Cond.isNotFalse f => boolFieldValue c f != some false
  | Cond.eqFalse f => boolFieldValue c f == some false
  | Cond.seatRange lo hi => decide (lo ≤ c.seatCount) && decide (c.seatCount ≤ hi)
  | Cond.strEq f v => strFieldValue c f == some v

/-- A row satisfies the conjunction of all emitted conditions. -/
def evalConds (c : Classroom) (conds : List Cond) : Bool :=
  conds.all (evalCond c)

/-- Mirrors `if flag: conditions.append('"col" IS NOT FALSE')` — the style
flags are plain two-valued booleans defaulting to `False` in the source; a
false flag appends nothing. -/
def flagCond (b : Bool) (field : String) : List Cond :=
  if b then [Cond.isNotFalse field] else []

/-- Mirrors `if class_size:` followed by appending
`'"seatCount" >= %s AND "seatCount" <= %s'` with parameters
`max(1, class_size - 5)` and `class_size + 10`.  Python truthiness makes
`0` behave exactly like `None`. -/
def sizeConds (class_size : Option Int) : List Cond :=
  match class_size with
  | some n => if n = 0 then [] else [Cond.seatRange (max 1 (n - 5)) (n + 10)]
  | none => []

/-- Mirrors `if field_arg: conditions.append('"col" = %s')` for a string
amenity.  Python truthiness makes `""` behave exactly like `None`. -/
def optStrCond (v : Option String) (field : String) : List Cond :=
  match v with
  | some s => if s = "" then [] else [Cond.strEq field s]
  | none => []

/-- Mirrors `if field_arg is not None:` followed by appending
`'"col" IS NOT FALSE' if field_arg else '"col" = FALSE'` for a boolean
amenity. -/
def optBoolCond (v : Option Bool) (field : String) : List Cond :=
  match v with
  | some b => if b then [Cond.isNotFalse field] else [Cond.eqFalse field]
  | none => []

/-- The condition list built by `query_classrooms_basic` (tools.py lines
196–208), in source order. -/
def basicConditions (seminar_setup lecture_setup group_learning : Bool)
    (class_size : Option Int) : List Cond :=
  flagCond seminar_setup "seminarSetup" ++
  flagCond lecture_setup "lectureSetup" ++
  flagCond group_learning "groupLearning" ++
  sizeConds class_size

/-- The argument record of `query_classrooms_with_amenities`, with the
source's parameter names and defaults. -/
structure AmenityArgs where
  seminar_setup : Bool := false
  lecture_setup : Bool := false
  group_learning : Bool := false
  class_size : Option Int := none
  department_name : Option String := none
  projection_surface : Option String := none
  computer : Option String := none
  microphone : Option String := none
  zoom_room : Option String := none
  classroom_capture : Option Bool := none
  group_learning_screens : Option Bool := none
  white_board : Option Bool := none
  chalk_board : Option Bool := none
  dual_board_screen_use : Option Bool := none
  group_learning_boards : Option Bool := none
  teaching_station : Option String := none
  windows : Option Bool := none
  ac : Option Bool := none
  floor_type : Option String := none
  furniture : Option String := none
  film_screening : Option Bool := none
  deriving Repr, DecidableEq

/-- The condition list built by `query_classrooms_with_amenities`
(tools.py lines 290–345), in source order: style flags, seat window,
string amenities, boolean amenities. -/
def amenityConditions (a : AmenityArgs) : List Cond :=
  flagCond a.seminar_setup "seminarSetup" ++
  flagCond a.lecture_setup "lectureSetup" ++
  flagCond a.group_learning "groupLearning" ++
  sizeConds a.class_size ++
  optStrCond a.projection_surface "projectionSurface" ++
  optStrCond a.computer "computer" ++
  optStrCond a.microphone "microphone" ++
  optStrCond a.zoom_room "zoomRoom" ++
  optStrCond a.teaching_station "teachingStation" ++
  optStrCond a.floor_type "floorType" ++
  optStrCond a.furniture "furniture" ++
  optBoolCond a.classroom_capture "classroomCapture" ++
  optBoolCond a.group_learning_screens "groupLearningScreens" ++
  optBoolCond a.white_board "whiteBoard" ++
  optBoolCond a.chalk_board "chalkBoard" ++
  optBoolCond a.dual_board_screen_use "dualBoardScreenUse" ++
  optBoolCond a.group_learning_boards "groupLearningBoards" ++
  optBoolCond a.windows "windows" ++
  optBoolCond a.ac "ac" ++
  optBoolCond a.film_screening "filmScreening"

/-- One detail line of the query tools' summary text (tools.py line 226 /
line 363), newline included. -/
def itemLine (c : Classroom) : String :=
  "- " ++ c.building ++ " " ++ c.room ++ ": " ++ toString c.seatCount ++ " seats\n"

/-- Summary text built by `query_classrooms_basic` for a non-empty result:
the `Found {n} classrooms:` header followed by one detail line for each of
the first 10 rows (tools.py lines 224–226). -/
def basicSummary (classrooms : List Classroom) : String :=
  (classrooms.take 10).foldl (fun acc c => acc ++ itemLine c)
    ("Found " ++ toString classrooms.length ++ " classrooms:\n\n")

/-- `query_classrooms_basic` (tools.py lines 173–231).  The store is the
external database: it receives the compiled condition list and either
returns rows (already capped at 50 by the `LIMIT 50` it is handed) or
raises, which the `except` clause turns into an error summary with empty
rows.  The returned pair is `(content for the model, structured artifact)`. -/
def query_classrooms_basic (seminar_setup lecture_setup group_learning : Bool)
    (class_size : Option Int) (department_name : Option String)
    (store : List Cond → Except String (List Classroom)) :
    String × List Classroom :=
  match store (basicConditions seminar_setup lecture_setup group_learning class_size) with
  | Except.error e => ("Error querying classrooms: " ++ e, [])
  | Except.ok classrooms =>
      if classrooms = [] then
        ("No classrooms found matching the basic criteria. Try adjusting the requirements.", [])
      else
        (basicSummary classrooms, classrooms.take 10)

/-- Summary text built by `query_classrooms_with_amenities` for a non-empty
result (tools.py lines 361–363): header plus one detail line per row. -/
def amenitySummary (classrooms : List Classroom) : String :=
  classrooms.foldl (fun acc c => acc ++ itemLine c)
    ("Found " ++ toString classrooms.length ++ " classroom(s) with your amenities:\n\n")

/-- `query_classrooms_with_amenities` (tools.py lines 235–368).  Rows are
capped at 3 by the `LIMIT 3` handed to the store; all returned rows appear
in both channels. -/
def query_classrooms_with_amenities (a : AmenityArgs)
    (store : List Cond → Except String (List Classroom)) :
    String × List Classroom :=
  match store (amenityConditions a) with
  | Except.error e => ("Error querying classrooms with amenities: " ++ e, [])
  | Except.ok classrooms =>
      if classrooms = [] then
        ("No classrooms found matching all the specified amenities. Consider relaxing some requirements.", [])
      else
        (amenitySummary classrooms, classrooms)

/-- One geocoding result object of the Google Maps geocode response. -/
structure GeoResult where
  formatted_address : String
  location_type : String
  deriving Repr, DecidableEq

/-- The decoded JSON body of a geocode response. -/
structure GeoData where
  status : String
  results : List GeoResult
  error_message : Option String := none
  deriving Repr, DecidableEq

/-- The dictionary returned by `validate_address`, with the source's keys. -/
structure ValidateResult where
  valid : Bool
  input : Option String := none
  formatted_address : Option String := none
  location_type : Option String := none
  error : Option String := none
  deriving Repr, DecidableEq

/-- `validate_address` (tools.py lines 16–63).  `apiKey` is the
`GOOGLE_MAPS_API_KEY` environment value (`none` = unset); `resp` models the
HTTP call: `Except.error e` is a raised exception whose string is `e`. -/
def validate_address (apiKey : Option String) (address : String)
    (resp : Except String GeoData) : ValidateResult :=
  match apiKey with
  | none => { valid := false, error := some "Google Maps API key not configured" }
  | some _ =>
    match resp with
    | Except.error e => { valid := false, error := some e }
    | Except.ok data =>
        if data.status = "OK" ∧ data.results ≠ [] then
          let r := data.results.headD { formatted_address := "", location_type := "" }
          { valid := true, input := some address,
            formatted_address := some r.formatted_address,
            location_type := some r.location_type }
        else
          { valid := false, input := some address,
            error := some ("Address not found. API status: " ++ data.status ++ ". "
              ++ data.error_message.getD "") }

/-- One element of a distance-matrix response row, flattened to the fields
the source reads: `status`, `distance.value`, `distance.text`,
`duration.text`. -/
structure DistElem where
  status : String
  distValue : Int := 0
  distText : String := ""
  durText : String := ""
  deriving Repr, DecidableEq

/-- The decoded JSON body of a distance-matrix response; each row is its
`elements` list. -/
structure DistMatrixData where
  status : String
  rows : List (List DistElem)
  deriving Repr, DecidableEq

/-- `get_distance` (tools.py lines 66–104). -/
def get_distance (apiKey : Option String) (origin destination mode : String)
    (resp : Except String DistMatrixData) : String :=
  match apiKey with
  | none => "Error: Google Maps API key not configured"
  | some _ =>
    match resp with
    | Except.error e => "Error: " ++ e
    | Except.ok data =>
      if data.status ≠ "OK" then
        "Could not find route. API status: " ++ data.status ++ ". Try using a full street address."
      else
        match data.rows with
        | [] => "Could not find route between these locations. Try using full street addresses instead of building names."
        | row :: _ =>
          match row with
          | [] => "Could not find route between these locations. Try using full street addresses instead of building names."
          | elem :: _ =>
            if elem.status ≠ "OK" then
              "Could not find route between locations. Status: " ++ elem.status ++ ". Try using full street addresses."
            else
              elem.distText ++ " (" ++ elem.durText ++ " " ++ mode ++ ")"

/-- The fixed campus locality string (tools.py line 13). -/
def DEFAULT_CAMPUS : String := "Dartmouth College, Hanover, NH"

/-- Destination addresses built by `sort_classrooms_by_distance`
(tools.py line 128): building name joined to the fixed campus locality. -/
def destinationsOf (classrooms : List Classroom) : List String :=
  classrooms.map (fun c => c.building ++ ", " ++ DEFAULT_CAMPUS)

/-- The comparison relation of `results.sort(key=lambda x: x["dist"])`. -/
def distRel (a b : Classroom × DistElem) : Prop :=
  a.2.distValue ≤ b.2.distValue

instance : DecidableRel distRel :=
  fun a b => inferInstanceAs (Decidable (a.2.distValue ≤ b.2.distValue))

instance : IsTotal (Classroom × DistElem) distRel :=
  ⟨fun a b => Int.le_total a.2.distValue b.2.distValue⟩

instance : IsTrans (Classroom × DistElem) distRel :=
  ⟨fun _ _ _ hab hbc => le_trans hab hbc⟩

/-- Pair each classroom with its distance-matrix element and keep exactly
the pairs whose lookup succeeded (tools.py lines 143–146). -/
def okPairs (classrooms : List Classroom) (elements : List DistElem) :
    List (Classroom × DistElem) :=
  (classrooms.zip elements).filter (fun p => p.2.status == "OK")

/-- The surviving pairs sorted ascending by raw distance value
(tools.py line 147).  Python's `list.sort` is a stable ascending sort;
`List.insertionSort` is stable and structurally recursive, so concrete
runs of the embedding reduce inside the kernel. -/
def rankedResults (classrooms : List Classroom) (elements : List DistElem) :
    List (Classroom × DistElem) :=
  List.insertionSort distRel (okPairs classrooms elements)

/-- One output line of `sort_classrooms_by_distance` (tools.py line 152),
newline included. -/
def rankLine (mode : String) (p : Classroom × DistElem) : String :=
  "- " ++ p.1.building ++ " " ++ p.1.room ++ ": " ++ toString p.1.seatCount
    ++ " seats (" ++ p.2.distText ++ ", " ++ p.2.durText ++ " " ++ mode ++ ")\n"

/-- `sort_classrooms_by_distance` (tools.py lines 107–157).  `resp` models
the single batched distance-matrix call, already projected to
`json()["rows"][0]["elements"]`; `Except.error e` covers both a raised
exception and a malformed body, which the `except` clause turns into an
error string. -/
def sort_classrooms_by_distance (apiKey : Option String) (origin : String)
    (classrooms : List Classroom) (mode : String)
    (resp : Except String (List DistElem)) : String :=
  match apiKey with
  | none => "Error: Google Maps API key not configured"
  | some _ =>
    if classrooms = [] then "No classrooms to sort."
    else
      match resp with
      | Except.error e => "Error: " ++ e
      | Except.ok elements =>
        let results := rankedResults classrooms elements
        results.foldl (fun acc p => acc ++ rankLine mode p)
          ("Found " ++ toString results.length ++ " classrooms:\n\n")

/-- One entry of the request-state message list. -/
structure ChatMessage where
  role : String
  content : String
  deriving Repr, DecidableEq

/-- The two backing models constructed in model.py lines 16–23. -/
inductive ModelChoice where
  | basic_model
  | advanced_model
  deriving Repr, DecidableEq

/-- `dynamic_model_selection` (model.py lines 25–35): recomputed from
`len(request.state["messages"])` on every model invocation by the
`wrap_model_call` middleware; nothing is cached. -/
def dynamic_model_selection (messages : List ChatMessage) : ModelChoice :=
  if messages.length > 10 then ModelChoice.advanced_model else ModelChoice.basic_model

/-- One message of the LangGraph workflow response, projected to the
attributes `chat_endpoint` reads: `type`, `content`, `tool_calls`
(abstracted to whether the list is non-empty), `artifact`. -/
structure AgentMessage where
  type : String
  content : String
  hasToolCalls : Bool := false
  artifact : Option (List Classroom) := none
  deriving Repr, DecidableEq

/-- The `ChatResponse` model of app.py lines 31–34. -/
structure ChatResponse where
  message : String
  classrooms : Option (List Classroom) := none
  toolCalled : Bool := false
  deriving Repr, DecidableEq

/-- A Python exception value as `chat_endpoint` can raise or catch one:
either a FastAPI `HTTPException` or any other exception, carrying its
message string. -/
inductive PyExc where
  | httpException (status_code : Nat) (detail : String)
  | exception (msg : String)
  deriving Repr, DecidableEq

/-- `str(e)` on a caught exception: Starlette's `HTTPException.__str__`
renders `"{status_code}: {detail}"`; a plain exception renders its
message. -/
def pyExcStr : PyExc → String
  | PyExc.httpException code detail => toString code ++ ": " ++ detail
  | PyExc.exception msg => msg

/-- What the HTTP client observes from one `/chat` call. -/
inductive EndpointResult where
  | ok (response : ChatResponse)
  | httpError (status_code : Nat) (detail : String)
  deriving Repr, DecidableEq

/-- Scan of app.py lines 92–97: walking the response messages in reverse,
the structured rows are taken from the first tool message with a truthy
artifact (Python truthiness: `None` and `[]` are both skipped). -/
def extractClassrooms (msgs : List AgentMessage) : Option (List Classroom) :=
  match msgs.reverse.find? (fun m => m.type == "tool" && m.artifact.any (fun l => !l.isEmpty)) with
  | some m => m.artifact
  | none => none

/-- The `try` body of `chat_endpoint` (app.py lines 45–105): a missing or
empty authorization header raises a 401 `HTTPException` before the
workflow is invoked; a workflow exception propagates; an empty response
raises a 500. -/
def chat_endpoint_try (authorization : Option String)
    (messages : List ChatMessage)
    (workflow : List ChatMessage → Except String (List AgentMessage)) :
    Except PyExc ChatResponse :=
  if authorization = none ∨ authorization = some "" then
    Except.error (PyExc.httpException 401 "Authorization header required")
  else
    match workflow messages with
    | Except.error e => Except.error (PyExc.exception e)
    | Except.ok msgs =>
      if msgs = [] then
        Except.error (PyExc.httpException 500 "No response from agent")
      else
        Except.ok {
          message := ((msgs.getLast?).map (fun m => m.content)).getD "",
          classrooms := extractClassrooms msgs,
          toolCalled := msgs.any (fun m => m.hasToolCalls) }

/-- `chat_endpoint` (app.py lines 36–109): the trailing
`except Exception as e: raise HTTPException(status_code=500, detail=str(e))`
catches every exception raised in the body — including the endpoint's own
401 `HTTPException`, since FastAPI's `HTTPException` subclasses
`Exception` — and resurfaces it as a 500 error response. -/
def chat_endpoint (authorization : Option String) (messages : List ChatMessage)
    (workflow : List ChatMessage → Except String (List AgentMessage)) :
    EndpointResult :=
  match chat_endpoint_try authorization messages workflow with
  | Except.ok r => EndpointResult.ok r
  | Except.error e => EndpointResult.httpError 500 (pyExcStr e)

/-- The three style flags, for stating one property uniformly over them. -/
inductive StyleFlag where
  | seminar
  | lecture
  | group
  deriving Repr, DecidableEq

/-- The SQL column a style flag filters. -/
def StyleFlag.column : StyleFlag → String
  | StyleFlag.seminar => "seminarSetup"
  | StyleFlag.lecture => "lectureSetup"
  | StyleFlag.group => "groupLearning"

/-- The value of a style flag among the basic-tier arguments. -/
def styleArgBasic (f : StyleFlag) (seminar_setup lecture_setup group_learning : Bool) : Bool :=
  match f with
  | StyleFlag.seminar => seminar_setup
  | StyleFlag.lecture => lecture_setup
  | StyleFlag.group => group_learning

/-- The value of a style flag among the amenity-tier arguments. -/
def styleArgAmenity (f : StyleFlag) (a : AmenityArgs) : Bool :=
  match f with
  | StyleFlag.seminar => a.seminar_setup
  | StyleFlag.lecture => a.lecture_setup
  | StyleFlag.group => a.group_learning

/-- The nine boolean amenity parameters of
`query_classrooms_with_amenities`, for stating one property uniformly. -/
inductive AmenityBoolField where
  | classroom_capture
  | group_learning_screens
  | white_board
  | chalk_board
  | dual_board_screen_use
  | group_learning_boards
  | windows
  | ac
  | film_screening
  deriving Repr, DecidableEq

/-- The value of a boolean amenity parameter in an argument record. -/
def amenityArg (a : AmenityArgs) : AmenityBoolField → Option Bool
  | AmenityBoolField.classroom_capture => a.classroom_capture
  | AmenityBoolField.group_learning_screens => a.group_learning_screens
  | AmenityBoolField.white_board => a.white_board
  | AmenityBoolField.chalk_board => a.chalk_board
  | AmenityBoolField.dual_board_screen_use => a.dual_board_screen_use
  | AmenityBoolField.group_learning_boards => a.group_learning_boards
  | AmenityBoolField.windows => a.windows
  | AmenityBoolField.ac => a.ac
  | AmenityBoolField.film_screening => a.film_screening

/-- The SQL column a boolean amenity parameter filters. -/
def amenityColumn : AmenityBoolField → String
  | AmenityBoolField.classroom_capture => "classroomCapture"
  | AmenityBoolField.group_learning_screens => "groupLearningScreens"
  | AmenityBoolField.white_board => "whiteBoard"
  | AmenityBoolField.chalk_board => "chalkBoard"
  | AmenityBoolField.dual_board_screen_use => "dualBoardScreenUse"
  | AmenityBoolField.group_learning_boards => "groupLearningBoards"
  | AmenityBoolField.windows => "windows"
  | AmenityBoolField.ac => "ac"
  | AmenityBoolField.film_screening => "filmScreening"

/-- The SQL column a condition constrains, if any. -/
def condField : Cond → Option String
  | Cond.isNotFalse f => some f
  | Cond.eqFalse f => some f
  | Cond.strEq f _ => some f
  | Cond.seatRange _ _ => none

/-- Whether any emitted condition constrains the given column. -/
def mentionsField (conds : List Cond) (f : String) : Bool :=
  conds.any (fun c => condField c == some f)

/-- Prefix test on character lists; written by structural recursion so a
concrete check reduces inside the kernel. -/
def startsWithChars : List Char → List Char → Bool
  | [], _ => true
  | _ :: _, [] => false
  | p :: ps, c :: cs => p == c && startsWithChars ps cs

/-- Substring test on character lists. -/
def containsChars (pat : List Char) : List Char → Bool
  | [] => startsWithChars pat []
  | c :: cs => startsWithChars pat (c :: cs) || containsChars pat cs

/-- Stated from the spec's response-contract words, for comparison with
what the code produces: the summary string "describes the structured
payload item-by-item" when some returned row's
`- {building} {room}: {seats} seats` detail line occurs inside the
summary text. -/
def summaryEnumeratesRows (summary : String) (rows : List Classroom) : Bool :=
  rows.any (fun r => containsChars (itemLine r).toList summary.toList)

/-- Demo rows and stores used by the concrete witnesses below. -/
def demoRoom1 : Classroom := { building := "Baker", room := "101", seatCount := 30 }

def demoRoom2 : Classroom := { building := "Carson", room := "61", seatCount := 50 }

def demoStore : List Cond → Except String (List Classroom) :=
  fun _ => Except.ok [demoRoom1, demoRoom2]

/-- A room whose style and amenity columns are all NULL in the store. -/
def demoNullRoom : Classroom := { building := "Moore", room := "110", seatCount := 24 }

/-- A room whose `seminarSetup` column is TRUE. -/
def demoSeminarRoom : Classroom :=
  { building := "Moore", room := "202", seatCount := 16, seminarSetup := some true }

/-- Arguments requesting classroom capture and rejecting whiteboards. -/
def demoArgsCapture : AmenityArgs :=
  { classroom_capture := some true, white_board := some false }

/-- A third demo room, closest to the origin. -/
def demoRoomC : Classroom := { building := "Sudikoff", room := "214", seatCount := 40 }

/-- The lookup element of the room whose distance lookup failed. -/
def demoFailElem : DistElem := { status := "NOT_FOUND" }

/-- Three candidate rooms: two lookups succeed, one fails. -/
def demoRooms3 : List Classroom := [demoRoom1, demoRoom2, demoRoomC]

/-- Their batched lookup elements, the middle one failed. -/
def demoElems3 : List DistElem :=
  [{ status := "OK", distValue := 500, distText := "0.5 km", durText := "7 mins" },
   demoFailElem,
   { status := "OK", distValue := 120, distText := "0.1 km", durText := "2 mins" }]

/-- A conversation of k identical messages. -/
def demoMsgs (k : Nat) : List ChatMessage :=
  List.replicate k { role := "user", content := "hello" }

/-- Folding string append over a list factors through the initial value. -/
theorem foldl_append_init (l : List String) :
    ∀ init : String, l.foldl (· ++ ·) init = init ++ l.foldl (· ++ ·) "" := by
  induction l with
  | nil => intro init; simp [List.foldl]
  | cons s rest ih =>
      intro init
      simp only [List.foldl]
      rw [ih (init ++ s), String.empty_append, ih s, String.append_assoc]

/-- `String.join` unfolds one element at a time. -/
theorem join_cons (s : String) (l : List String) :
    String.join (s :: l) = s ++ String.join l := by
  show List.foldl (· ++ ·) "" (s :: l) = s ++ List.foldl (· ++ ·) "" l
  simp only [List.foldl]
  rw [foldl_append_init l ("" ++ s), String.empty_append]

/-- The `result_text += line` accumulation loops of the source equal the
header followed by the concatenation of the per-row lines. -/
theorem foldl_line_append {α : Type} (f : α → String) :
    ∀ (l : List α) (init : String),
      l.foldl (fun acc x => acc ++ f x) init = init ++ String.join (l.map f) := by
  intro l
  induction l with
  | nil => intro init; simp [String.join, List.foldl]
  | cons x rest ih =>
      intro init
      simp only [List.foldl, List.map]
      rw [ih (init ++ f x), join_cons, String.append_assoc]

/-- Filtering the zipped pairs on a property of the second component keeps
as many pairs as the property keeps elements, when the lists are aligned. -/
theorem length_filter_zip {α β : Type} (q : β → Bool) :
    ∀ (cs : List α) (es : List β), cs.length = es.length →
      ((cs.zip es).filter (fun p => q p.2)).length = (es.filter q).length := by
  intro cs
  induction cs with
  | nil =>
      intro es h
      cases es with
      | nil => rfl
      | cons e es => simp at h
  | cons c cs ih =>
      intro es h
      cases es with
      | nil => simp at h
      | cons e es =>
          simp only [List.length_cons, Nat.succ.injEq] at h
          have ihe := ih es h
          rw [List.zip_eq_zipWith] at ihe
          simp only [List.zip_cons_cons, List.filter]
          cases q e <;> simp [ihe]

/-- `mentionsField` distributes over list append. -/
theorem mentionsField_append (l₁ l₂ : List Cond) (f : String) :
    mentionsField (l₁ ++ l₂) f = (mentionsField l₁ f || mentionsField l₂ f) := by
  simp [mentionsField, List.any_append]

/-- A style-flag piece mentions exactly its own column, and only when the
flag is set. -/
theorem mentionsField_flagCond (b : Bool) (g f : String) :
    mentionsField (flagCond b g) f = (b && (g == f)) := by
  cases b <;> simp [mentionsField, flagCond, condField]

/-- The seat-window piece never constrains a named column. -/
theorem mentionsField_sizeConds (sz : Option Int) (f : String) :
    mentionsField (sizeConds sz) f = false := by
  cases sz with
  | none => rfl
  | some n =>
      by_cases h : n = 0 <;> simp [mentionsField, sizeConds, h, condField]

/-- A string-amenity piece mentions no column other than its own. -/
theorem mentionsField_optStrCond (v : Option String) (g f : String) (h : g ≠ f) :
    mentionsField (optStrCond v g) f = false := by
  cases v with
  | none => rfl
  | some s =>
      by_cases hs : s = "" <;> simp [mentionsField, optStrCond, hs, condField, h]

/-- A boolean-amenity piece mentions no column other than its own. -/
theorem mentionsField_optBoolCond (v : Option Bool) (g f : String) (h : g ≠ f) :
    mentionsField (optBoolCond v g) f = false := by
  cases v with
  | none => rfl
  | some b => cases b <;> simp [mentionsField, optBoolCond, condField, h]

/-- Unfolding lemma: a set flag emits its `IS NOT FALSE` condition. -/
theorem flagCond_true (f : String) : flagCond true f = [Cond.isNotFalse f] := rfl

/-- Unfolding lemma: an unset flag emits nothing. -/
theorem flagCond_false (f : String) : flagCond false f = [] := rfl

/-- A style-flag piece never emits a seat-window condition. -/
theorem seatRange_not_mem_flagCond (lo hi : Int) (b : Bool) (f : String) :
    Cond.seatRange lo hi ∉ flagCond b f := by
  cases b <;> simp [flagCond]

/-- A string-amenity piece never emits a seat-window condition. -/
theorem seatRange_not_mem_optStrCond (lo hi : Int) (v : Option String) (f : String) :
    Cond.seatRange lo hi ∉ optStrCond v f := by
  cases v with
  | none => simp [optStrCond]
  | some s => by_cases hs : s = "" <;> simp [optStrCond, hs]

/-- A boolean-amenity piece never emits a seat-window condition. -/
theorem seatRange_not_mem_optBoolCond (lo hi : Int) (v : Option Bool) (f : String) :
    Cond.seatRange lo hi ∉ optBoolCond v f := by
  cases v with
  | none => simp [optBoolCond]
  | some b => cases b <;> simp [optBoolCond]

/-- C3: for every size target n ≥ 1 supplied to either query tier, the
compiled seat-count condition is the inclusive range
[max(1, n−5), n+10]: seatCount ≥ max(1, n−5) AND seatCount ≤ n+10. -/
theorem C3_size_window (n : Int) (hn : 1 ≤ n) (s l g : Bool) (a : AmenityArgs)
    (r : Classroom) :
    Cond.seatRange (max 1 (n - 5)) (n + 10) ∈ basicConditions s l g (some n)
  ∧ Cond.seatRange (max 1 (n - 5)) (n + 10) ∈ amenityConditions { a with class_size := some n }
  ∧ (evalCond r (Cond.seatRange (max 1 (n - 5)) (n + 10)) = true ↔
      max 1 (n - 5) ≤ r.seatCount ∧ r.seatCount ≤ n + 10) := by
  have hn0 : n ≠ 0 := by omega
  refine ⟨?_, ?_, ?_⟩
  · simp [basicConditions, sizeConds, hn0]
  · simp [amenityConditions, sizeConds, hn0]
  · simp [evalCond]

theorem C3_size_window_witness :
    Cond.seatRange (max 1 ((40 : Int) - 5)) (40 + 10) ∈ basicConditions false true false (some 40)
  ∧ Cond.seatRange (max 1 ((40 : Int) - 5)) (40 + 10) ∈
      amenityConditions { ({} : AmenityArgs) with class_size := some 40 }
  ∧ (evalCond demoRoom2 (Cond.seatRange (max 1 ((40 : Int) - 5)) (40 + 10)) = true ↔
      max 1 ((40 : Int) - 5) ≤ demoRoom2.seatCount ∧ demoRoom2.seatCount ≤ 40 + 10) :=
  C3_size_window 40 (by decide) false true false {} demoRoom2

/-- C10: in both query tiers a class size of 0 — like an omitted class
size — compiles no seat-count condition at all; in particular the window
[1, 10] that the size formula would give for n = 0 is never produced. -/
theorem C10_zero_size_no_window (s l g : Bool) (a : AmenityArgs) (lo hi : Int) :
    basicConditions s l g (some 0) = basicConditions s l g none
  ∧ amenityConditions { a with class_size := some 0 }
      = amenityConditions { a with class_size := none }
  ∧ Cond.seatRange lo hi ∉ basicConditions s l g (some 0)
  ∧ Cond.seatRange lo hi ∉ amenityConditions { a with class_size := some 0 } := by
  refine ⟨?_, ?_, ?_, ?_⟩
  · simp [basicConditions, sizeConds]
  · simp [amenityConditions, sizeConds]
  · simp [basicConditions, sizeConds, seatRange_not_mem_flagCond]
  · simp [amenityConditions, sizeConds, seatRange_not_mem_flagCond,
      seatRange_not_mem_optStrCond, seatRange_not_mem_optBoolCond]

/-- C2 (counterexample): with every style flag left false — the only way
the tools accept "not required" — the compiled predicate is empty: no
`"seminarSetup" = FALSE` condition is emitted, and a room whose
`seminarSetup` is TRUE passes the whole compiled predicate, which the
claimed strictly-false compilation would reject. -/
theorem C2_counterexample :
    basicConditions false false false none = []
  ∧ Cond.eqFalse "seminarSetup" ∉ basicConditions false false false none
  ∧ evalConds demoSeminarRoom (basicConditions false false false none) = true
  ∧ evalCond demoSeminarRoom (Cond.eqFalse "seminarSetup") = false := by
  refine ⟨rfl, ?_, rfl, rfl⟩
  simp [basicConditions, flagCond, sizeConds]

/-- C2 (amended): in both tiers, a style flag set to required compiles to
the null-tolerant `IS NOT FALSE` condition on its column — TRUE or NULL
passes, only FALSE fails — while a style flag left false (the flags are
two-valued, defaulting to false; there is no distinct "not required"
state) compiles to no condition on that column at all. -/
theorem C2_style_flag_compilation (f : StyleFlag)
    (seminar_setup lecture_setup group_learning : Bool) (class_size : Option Int)
    (a : AmenityArgs) (r : Classroom) :
    (styleArgBasic f seminar_setup lecture_setup group_learning = true →
      Cond.isNotFalse f.column ∈
        basicConditions seminar_setup lecture_setup group_learning class_size)
  ∧ (styleArgAmenity f a = true → Cond.isNotFalse f.column ∈ amenityConditions a)
  ∧ (boolFieldValue r f.column = none → evalCond r (Cond.isNotFalse f.column) = true)
  ∧ (boolFieldValue r f.column = some true → evalCond r (Cond.isNotFalse f.column) = true)
  ∧ (boolFieldValue r f.column = some false → evalCond r (Cond.isNotFalse f.column) = false)
  ∧ (styleArgBasic f seminar_setup lecture_setup group_learning = false →
      mentionsField (basicConditions seminar_setup lecture_setup group_learning class_size)
        f.column = false)
  ∧ (styleArgAmenity f a = false → mentionsField (amenityConditions a) f.column = false) := by
  cases f <;>
    refine ⟨fun h => ?_, fun h => ?_, fun h => ?_, fun h => ?_, fun h => ?_,
            fun h => ?_, fun h => ?_⟩ <;>
      simp_all [styleArgBasic, styleArgAmenity, StyleFlag.column, basicConditions,
        amenityConditions, flagCond_true, flagCond_false, evalCond, mentionsField_append,
        mentionsField_flagCond, mentionsField_sizeConds, mentionsField_optStrCond,
        mentionsField_optBoolCond]

theorem C2_style_flag_compilation_witness :
    Cond.isNotFalse "seminarSetup" ∈ basicConditions true false false none
  ∧ evalCond demoNullRoom (Cond.isNotFalse "seminarSetup") = true
  ∧ mentionsField (basicConditions false false false none) "seminarSetup" = false :=
  ⟨(C2_style_flag_compilation StyleFlag.seminar true false false none {} demoNullRoom).1 rfl,
   (C2_style_flag_compilation StyleFlag.seminar true false false none {} demoNullRoom).2.2.1 rfl,
   (C2_style_flag_compilation StyleFlag.seminar false false false none {} demoNullRoom).2.2.2.2.2.1 rfl⟩

/-- C4: for every boolean amenity parameter that is present: set true it
compiles to the null-tolerant `IS NOT FALSE` condition, which admits a row
whose column is NULL; set false it compiles to the strict `= FALSE`
condition, which excludes a row whose column is NULL. -/
theorem C4_amenity_null_asymmetry (a : AmenityArgs) (f : AmenityBoolField)
    (r : Classroom) (hnull : boolFieldValue r (amenityColumn f) = none) :
    (amenityArg a f = some true →
      Cond.isNotFalse (amenityColumn f) ∈ amenityConditions a
      ∧ evalCond r (Cond.isNotFalse (amenityColumn f)) = true)
  ∧ (amenityArg a f = some false →
      Cond.eqFalse (amenityColumn f) ∈ amenityConditions a
      ∧ evalCond r (Cond.eqFalse (amenityColumn f)) = false) := by
  cases f <;>
    refine ⟨fun h => ⟨?_, ?_⟩, fun h => ⟨?_, ?_⟩⟩ <;>
      simp_all [amenityConditions, amenityArg, amenityColumn, optBoolCond, evalCond]

theorem C4_amenity_null_asymmetry_witness :
    boolFieldValue demoNullRoom (amenityColumn AmenityBoolField.classroom_capture) = none
  ∧ (Cond.isNotFalse (amenityColumn AmenityBoolField.classroom_capture) ∈
        amenityConditions demoArgsCapture
      ∧ evalCond demoNullRoom
          (Cond.isNotFalse (amenityColumn AmenityBoolField.classroom_capture)) = true)
  ∧ (Cond.eqFalse (amenityColumn AmenityBoolField.white_board) ∈
        amenityConditions demoArgsCapture
      ∧ evalCond demoNullRoom
          (Cond.eqFalse (amenityColumn AmenityBoolField.white_board)) = false) :=
  ⟨rfl,
   (C4_amenity_null_asymmetry demoArgsCapture AmenityBoolField.classroom_capture
      demoNullRoom rfl).1 rfl,
   (C4_amenity_null_asymmetry demoArgsCapture AmenityBoolField.white_board
      demoNullRoom rfl).2 rfl⟩

/-- C1 (counterexample): on a concrete store with two rooms, the basic
query tool's summary string contains each structured row's
building/room/seat detail as its own line, alongside the structured
artifact carrying the same rows — the summary channel is not restricted
to an aggregate count and a follow-up offer. -/
theorem C1_counterexample :
    summaryEnumeratesRows
        (query_classrooms_basic false false false none none demoStore).1
        (query_classrooms_basic false false false none none demoStore).2 = true
  ∧ (query_classrooms_basic false false false none none demoStore).2
      = [demoRoom1, demoRoom2]
  ∧ (query_classrooms_basic false false false none none demoStore).1
      = "Found 2 classrooms:\n\n- Baker 101: 30 seats\n- Carson 61: 50 seats\n" := by
  refine ⟨?_, rfl, rfl⟩
  rfl

/-- C1 (amended): whenever the basic query returns structured rows, its
summary string is the aggregate `Found {n} classrooms:` header followed by
exactly one `- {building} {room}: {seats} seats` detail line per
structured row (the first 10 rows, which are also the artifact); the
aggregate-only restriction of the response contract is imposed only on
the model's narrated reply by the system prompt (agent.py lines 25–28),
not on the tool's summary string. -/
theorem C1_summary_enumerates (seminar_setup lecture_setup group_learning : Bool)
    (class_size : Option Int) (department_name : Option String)
    (store : List Cond → Except String (List Classroom)) (cs : List Classroom)
    (hstore : store (basicConditions seminar_setup lecture_setup group_learning class_size)
      = Except.ok cs)
    (hne : cs ≠ []) :
    (query_classrooms_basic seminar_setup lecture_setup group_learning class_size
        department_name store).1
      = "Found " ++ toString cs.length ++ " classrooms:\n\n"
        ++ String.join ((cs.take 10).map itemLine)
  ∧ (query_classrooms_basic seminar_setup lecture_setup group_learning class_size
        department_name store).2 = cs.take 10 := by
  unfold query_classrooms_basic
  rw [hstore]
  simp [hne, basicSummary, foldl_line_append]

theorem C1_summary_enumerates_witness :
    demoStore (basicConditions false false false none) = Except.ok [demoRoom1, demoRoom2]
  ∧ ([demoRoom1, demoRoom2] : List Classroom) ≠ []
  ∧ (query_classrooms_basic false false false none none demoStore).1
      = "Found " ++ toString ([demoRoom1, demoRoom2] : List Classroom).length
        ++ " classrooms:\n\n"
        ++ String.join ((([demoRoom1, demoRoom2] : List Classroom).take 10).map itemLine) :=
  ⟨rfl, by decide,
   (C1_summary_enumerates false false false none none demoStore [demoRoom1, demoRoom2]
      rfl (by decide)).1⟩

/-- C5: for every origin and non-empty aligned candidate list, the batch
distance-and-rank tool resolves one destination per room as
`building ++ ", " ++ DEFAULT_CAMPUS`, pairs rooms with their lookup
elements, keeps exactly the pairs whose element status is OK, sorts the
survivors ascending by raw distance value, and renders one fixed-format
line per survivor after a count header.  The input list is a value the
function never returns modified (the embedding is pure, as is the source:
the list comprehension builds new dicts and `sort` runs on the new list). -/
theorem C5_distance_rank (apiKey origin mode : String)
    (classrooms : List Classroom) (elements : List DistElem)
    (hne : classrooms ≠ []) (hlen : classrooms.length = elements.length) :
    destinationsOf classrooms
      = classrooms.map (fun c => c.building ++ ", " ++ DEFAULT_CAMPUS)
  ∧ (∀ p : Classroom × DistElem,
      p ∈ rankedResults classrooms elements ↔
        p ∈ classrooms.zip elements ∧ p.2.status = "OK")
  ∧ (rankedResults classrooms elements).length
      = (elements.filter (fun e => e.status == "OK")).length
  ∧ List.Pairwise (fun p q : Classroom × DistElem => p.2.distValue ≤ q.2.distValue)
      (rankedResults classrooms elements)
  ∧ sort_classrooms_by_distance (some apiKey) origin classrooms mode (Except.ok elements)
      = "Found " ++ toString (rankedResults classrooms elements).length
        ++ " classrooms:\n\n"
        ++ String.join ((rankedResults classrooms elements).map (rankLine mode)) := by
  refine ⟨rfl, ?_, ?_, ?_, ?_⟩
  · intro p
    unfold rankedResults
    rw [(List.perm_insertionSort distRel (okPairs classrooms elements)).mem_iff]
    simp [okPairs, List.mem_filter]
  · unfold rankedResults
    rw [(List.perm_insertionSort distRel (okPairs classrooms elements)).length_eq]
    exact length_filter_zip (fun e => e.status == "OK") classrooms elements hlen
  · exact List.sorted_insertionSort distRel (okPairs classrooms elements)
  · simp only [sort_classrooms_by_distance]
    rw [if_neg hne]
    exact foldl_line_append (rankLine mode) (rankedResults classrooms elements) _

theorem C5_distance_rank_witness :
    demoRooms3 ≠ []
  ∧ demoRooms3.length = demoElems3.length
  ∧ (rankedResults demoRooms3 demoElems3).length = 2
  ∧ ((demoRoom2, demoFailElem) ∈ rankedResults demoRooms3 demoElems3 ↔
      (demoRoom2, demoFailElem) ∈ demoRooms3.zip demoElems3 ∧ demoFailElem.status = "OK")
  ∧ demoRoom2 ∈ demoRooms3
  ∧ sort_classrooms_by_distance (some "key") "Baker Library, Hanover, NH" demoRooms3
      "walking" (Except.ok demoElems3)
      = "Found 2 classrooms:\n\n- Sudikoff 214: 40 seats (0.1 km, 2 mins walking)\n- Baker 101: 30 seats (0.5 km, 7 mins walking)\n" := by
  have h := C5_distance_rank "key" "Baker Library, Hanover, NH" "walking"
    demoRooms3 demoElems3 (by decide) (by decide)
  exact ⟨by decide, by decide, h.2.2.1.trans (by rfl), h.2.1 (demoRoom2, demoFailElem),
    by decide, (h.2.2.2.2).trans (by rfl)⟩

/-- C6: every search and enrichment operation is total by construction in
this embedding — it returns a result value for every input — and each
external fault is converted at the component boundary into the structured
degraded result the source's `except` clause (or missing-credential
check) produces: an error summary paired with empty rows for the two
query tiers, a structured invalid/error dictionary for address
validation, and an error string for the distance operations. -/
theorem C6_total_degraded (e apiKey origin destination mode address : String)
    (s l g : Bool) (n : Option Int) (d : Option String) (a : AmenityArgs)
    (c : Classroom) (cs : List Classroom) (resp : Except String GeoData)
    (dresp : Except String DistMatrixData) (sresp : Except String (List DistElem)) :
    query_classrooms_basic s l g n d (fun _ => Except.error e)
      = ("Error querying classrooms: " ++ e, [])
  ∧ query_classrooms_with_amenities a (fun _ => Except.error e)
      = ("Error querying classrooms with amenities: " ++ e, [])
  ∧ validate_address none address resp
      = { valid := false, error := some "Google Maps API key not configured" }
  ∧ validate_address (some apiKey) address (Except.error e)
      = { valid := false, error := some e }
  ∧ get_distance none origin destination mode dresp
      = "Error: Google Maps API key not configured"
  ∧ get_distance (some apiKey) origin destination mode (Except.error e)
      = "Error: " ++ e
  ∧ sort_classrooms_by_distance none origin (c :: cs) mode sresp
      = "Error: Google Maps API key not configured"
  ∧ sort_classrooms_by_distance (some apiKey) origin (c :: cs) mode (Except.error e)
      = "Error: " ++ e := by
  refine ⟨rfl, rfl, rfl, rfl, rfl, rfl, rfl, ?_⟩
  simp [sort_classrooms_by_distance]

/-- C8: on every model invocation the selection is recomputed from the
current conversation length alone — more than 10 messages selects the
higher-capability model, 10 or fewer selects the lower-cost one, and two
conversations of equal length always select the same model. -/
theorem C8_model_escalation (messages other : List ChatMessage) :
    (messages.length > 10 →
      dynamic_model_selection messages = ModelChoice.advanced_model)
  ∧ (messages.length ≤ 10 →
      dynamic_model_selection messages = ModelChoice.basic_model)
  ∧ (messages.length = other.length →
      dynamic_model_selection messages = dynamic_model_selection other) := by
  refine ⟨fun h => ?_, fun h => ?_, fun h => ?_⟩
  · unfold dynamic_model_selection
    rw [if_pos h]
  · unfold dynamic_model_selection
    rw [if_neg (by omega)]
  · unfold dynamic_model_selection
    rw [h]

theorem C8_model_escalation_witness :
    (demoMsgs 11).length > 10
  ∧ dynamic_model_selection (demoMsgs 11) = ModelChoice.advanced_model
  ∧ (demoMsgs 10).length ≤ 10
  ∧ dynamic_model_selection (demoMsgs 10) = ModelChoice.basic_model :=
  ⟨by decide, (C8_model_escalation (demoMsgs 11) (demoMsgs 11)).1 (by decide),
   by decide, (C8_model_escalation (demoMsgs 10) (demoMsgs 10)).2.1 (by decide)⟩

/-- C9: a chat request missing (or carrying an empty) authorization header
is rejected inside the endpoint before the agent workflow is invoked —
the result is identical whatever the workflow would return — and the
client receives an HTTP error status: the 401 raised for it is caught by
the endpoint's blanket `except Exception` handler and surfaced as a 500
carrying the original detail string. -/
theorem C9_missing_auth_rejected (messages : List ChatMessage)
    (workflow other : List ChatMessage → Except String (List AgentMessage)) :
    chat_endpoint none messages workflow
      = EndpointResult.httpError 500 "401: Authorization header required"
  ∧ chat_endpoint (some "") messages workflow
      = EndpointResult.httpError 500 "401: Authorization header required"
  ∧ chat_endpoint none messages workflow = chat_endpoint none messages other :=
  ⟨rfl, rfl, rfl⟩
